import Mathlib

/-!
Shallow embedding of the homebridge-melcloud-home accessory logic:
the fan-speed virtual fan (src/fan-speed-fan.ts, class FanSpeedFan) and the
swing virtual fan (class SwingFan).  JavaScript strings are Lean strings;
JavaScript numbers arriving from the RotationSpeed characteristic are
rationals; characteristic Active values are naturals (INACTIVE = 0,
ACTIVE = 1, as in HomeKit).  The remote call is modelled by a Boolean
outcome flag passed to the dispatching function.
-/

/-- Models JavaScript String.prototype.toLowerCase character-wise.  All
strings the embedded code compares against are ASCII, where Char.toLower
agrees with the JavaScript function. -/
def jsToLower (s : String) : String := String.mk (s.data.map Char.toLower)

/-- One entry of the device's flat settings record: a name/value pair,
as in the settings list carried by an AirToAirUnit. -/
structure Setting where
  name : String
  value : String
deriving DecidableEq, Repr

/-- Modelled from the spec: melcloud-api.ts (MELCloudAPI.parseSettings) is not
among the provided sources; section 3 and the design note in section 9 of the
spec describe the settings record as a flat name/value list read by linear
lookup.  Returns the value of the first entry with the given name, or the
empty string when the name is absent (absent required fields are outside the
spec's data model). -/
def lookupSetting : List Setting → String → String
  | [], _ => ""
  | s :: rest, n => if s.name = n then s.value else lookupSetting rest n

/-- The parsed settings snapshot: the named fields the two accessories read. -/
structure Settings where
  Power : String
  OperationMode : String
  SetFanSpeed : String
  VaneHorizontalDirection : String
  VaneVerticalDirection : String
  SetTemperature : String
deriving DecidableEq, Repr

/-- Modelled from the spec: parseSettings turns the flat list into the named
record, field by field via linear lookup. -/
def parseSettings (settings : List Setting) : Settings where
  Power := lookupSetting settings "Power"
  OperationMode := lookupSetting settings "OperationMode"
  SetFanSpeed := lookupSetting settings "SetFanSpeed"
  VaneHorizontalDirection := lookupSetting settings "VaneHorizontalDirection"
  VaneVerticalDirection := lookupSetting settings "VaneVerticalDirection"
  SetTemperature := lookupSetting settings "SetTemperature"

/-- HomeKit Characteristic.Active.ACTIVE. -/
def ACTIVE : Nat := 1

/-- HomeKit Characteristic.Active.INACTIVE. -/
def INACTIVE : Nat := 0

/-- FanSpeedFan.percentageToFanSpeed (fan-speed-fan.ts lines 23-37):
maps a percentage to the fan-speed enum name by an if-cascade. -/
def FanSpeedFan.percentageToFanSpeed (percentage : ℚ) : String :=
  if percentage = 0 then "Auto"
  else if percentage ≤ 20 then "One"
  else if percentage ≤ 40 then "Two"
  else if percentage ≤ 60 then "Three"
  else if percentage ≤ 80 then "Four"
  else "Five"

/-- FanSpeedFan.fanSpeedToPercentage (fan-speed-fan.ts lines 40-58):
lowercases the input and matches each level name or numeric alias,
returning 0 (Auto) for anything unrecognized. -/
def FanSpeedFan.fanSpeedToPercentage (fanSpeed : String) : Nat :=
  let normalizedSpeed := jsToLower fanSpeed
  if normalizedSpeed = "auto" ∨ normalizedSpeed = "0" then 0
  else if normalizedSpeed = "one" ∨ normalizedSpeed = "1" then 20
  else if normalizedSpeed = "two" ∨ normalizedSpeed = "2" then 40
  else if normalizedSpeed = "three" ∨ normalizedSpeed = "3" then 60
  else if normalizedSpeed = "four" ∨ normalizedSpeed = "4" then 80
  else if normalizedSpeed = "five" ∨ normalizedSpeed = "5" then 100
  else 0

/-- The ordered six-level speed domain of the spec's data model. -/
inductive SpeedLevel where
  | Auto
  | One
  | Two
  | Three
  | Four
  | Five
deriving DecidableEq, Repr

/-- Ordinal index of a level in the order Auto < One < ... < Five. -/
def SpeedLevel.ordinal : SpeedLevel → Nat
  | .Auto => 0
  | .One => 1
  | .Two => 2
  | .Three => 3
  | .Four => 4
  | .Five => 5

/-- Lower-case name of a level. -/
def SpeedLevel.lowerName : SpeedLevel → String
  | .Auto => "auto"
  | .One => "one"
  | .Two => "two"
  | .Three => "three"
  | .Four => "four"
  | .Five => "five"

/-- Numeric-string alias of a level. -/
def SpeedLevel.numAlias : SpeedLevel → String
  | .Auto => "0"
  | .One => "1"
  | .Two => "2"
  | .Three => "3"
  | .Four => "4"
  | .Five => "5"

/-- The speed level denoted by a raw SetFanSpeed string under the
case-insensitive name/numeric-alias matching of fanSpeedToPercentage
(same cascade; unrecognized input resolves to Auto). -/
def parseSpeedLevel (fanSpeed : String) : SpeedLevel :=
  let normalizedSpeed := jsToLower fanSpeed
  if normalizedSpeed = "auto" ∨ normalizedSpeed = "0" then .Auto
  else if normalizedSpeed = "one" ∨ normalizedSpeed = "1" then .One
  else if normalizedSpeed = "two" ∨ normalizedSpeed = "2" then .Two
  else if normalizedSpeed = "three" ∨ normalizedSpeed = "3" then .Three
  else if normalizedSpeed = "four" ∨ normalizedSpeed = "4" then .Four
  else if normalizedSpeed = "five" ∨ normalizedSpeed = "5" then .Five
  else .Auto

/-- SwingFan.normalizeVane (part_000 lines 53-62): lowercase, then map the
auto aliases to "auto", the swing aliases to "swing", and pass everything
else through lowercased. -/
def SwingFan.normalizeVane (vane : String) : String :=
  let normalized := jsToLower vane
  if normalized = "0" ∨ normalized = "auto" then "auto"
  else if normalized = "6" ∨ normalized = "six" ∨ normalized = "7" ∨ normalized = "swing" then "swing"
  else normalized

/-- FanSpeedFan.getActive (fan-speed-fan.ts lines 101-115): ACTIVE when
power is on and the raw SetFanSpeed string is neither the literal "Auto"
nor "0". -/
def FanSpeedFan.getActive (settings : Settings) : Nat :=
  let isPowerOn := settings.Power = "True"
  let fanSpeed := settings.SetFanSpeed
  let isAuto := fanSpeed = "Auto" ∨ fanSpeed = "0"
  if isPowerOn ∧ ¬isAuto then ACTIVE else INACTIVE

/-- FanSpeedFan.getRotationSpeed (fan-speed-fan.ts lines 131-141). -/
def FanSpeedFan.getRotationSpeed (settings : Settings) : Nat :=
  FanSpeedFan.fanSpeedToPercentage settings.SetFanSpeed

/-- SwingFan.getActive (part_000 lines 64-78): ACTIVE when power is on and
the normalized vane direction is "swing". -/
def SwingFan.getActive (settings : Settings) : Nat :=
  let isPowerOn := settings.Power = "True"
  let vaneMode := SwingFan.normalizeVane settings.VaneVerticalDirection
  if isPowerOn ∧ vaneMode = "swing" then ACTIVE else INACTIVE

/-- The argument record of MELCloudAPI.controlDevice as both dispatchers
build it.  The source passes Number.parseFloat(settings.SetTemperature) for
setTemperature; the embedding keeps the raw snapshot string, since no claim
concerns the parsed numeric value.  The two always-null passthrough fields
(temperatureIncrementOverride, inStandbyMode) are constants and omitted. -/
structure ControlCommand where
  power : Bool
  operationMode : String
  setFanSpeed : String
  vaneHorizontalDirection : String
  vaneVerticalDirection : String
  setTemperatureRaw : String
deriving DecidableEq, Repr

/-- The single fault the dispatchers re-raise on a failed remote call:
HapStatusError with HAPStatus.SERVICE_COMMUNICATION_FAILURE. -/
inductive HapError where
  | serviceCommunicationFailure
deriving DecidableEq, Repr

/-- Observable outcome of one dispatcher run: the command it sent to the
remote API, the device settings list afterwards, and the error raised to
the caller (none on success). -/
structure SetOutcome where
  command : ControlCommand
  newSettings : List Setting
  error : Option HapError
deriving DecidableEq, Repr

/-- FanSpeedFan.setFanSpeed (fan-speed-fan.ts lines 154-196): builds the
full command with power forced true, sends it (outcome given by remoteOk),
and on success rewrites the cached settings list, replacing SetFanSpeed
with the new speed and Power with "True"; on failure the list is left
untouched and the service-communication fault is raised. -/
def FanSpeedFan.setFanSpeed (devSettings : List Setting) (fanSpeed : String)
    (remoteOk : Bool) : SetOutcome :=
  let settings := parseSettings devSettings
  let command : ControlCommand :=
    { power := true
      operationMode := settings.OperationMode
      setFanSpeed := fanSpeed
      vaneHorizontalDirection := settings.VaneHorizontalDirection
      vaneVerticalDirection := settings.VaneVerticalDirection
      setTemperatureRaw := settings.SetTemperature }
  if remoteOk then
    let updatedSettings := devSettings.map fun setting =>
      if setting.name = "SetFanSpeed" then { setting with value := fanSpeed }
      else if setting.name = "Power" then { setting with value := "True" }
      else setting
    { command := command, newSettings := updatedSettings, error := none }
  else
    { command := command, newSettings := devSettings
      error := some HapError.serviceCommunicationFailure }

/-- FanSpeedFan.setRotationSpeed (fan-speed-fan.ts lines 143-152):
converts the percentage and delegates to setFanSpeed. -/
def FanSpeedFan.setRotationSpeed (devSettings : List Setting) (value : ℚ)
    (remoteOk : Bool) : SetOutcome :=
  FanSpeedFan.setFanSpeed devSettings (FanSpeedFan.percentageToFanSpeed value) remoteOk

/-- FanSpeedFan.setActive (fan-speed-fan.ts lines 117-129): on sets speed
Five, off sets speed Auto. -/
def FanSpeedFan.setActive (devSettings : List Setting) (isActive : Bool)
    (remoteOk : Bool) : SetOutcome :=
  if isActive then FanSpeedFan.setFanSpeed devSettings "Five" remoteOk
  else FanSpeedFan.setFanSpeed devSettings "Auto" remoteOk

/-- SwingFan.setVanePosition (part_000 lines 94-133): builds the full
command with power taken from the snapshot (Power = "True"), sends it, and
on success rewrites the cached settings list replacing only
VaneVerticalDirection; on failure the list is left untouched and the
service-communication fault is raised. -/
def SwingFan.setVanePosition (devSettings : List Setting) (vaneDirection : String)
    (remoteOk : Bool) : SetOutcome :=
  let settings := parseSettings devSettings
  let command : ControlCommand :=
    { power := settings.Power = "True"
      operationMode := settings.OperationMode
      setFanSpeed := settings.SetFanSpeed
      vaneHorizontalDirection := settings.VaneHorizontalDirection
      vaneVerticalDirection := vaneDirection
      setTemperatureRaw := settings.SetTemperature }
  if remoteOk then
    let updatedSettings := devSettings.map fun setting =>
      if setting.name = "VaneVerticalDirection" then { setting with value := vaneDirection }
      else setting
    { command := command, newSettings := updatedSettings, error := none }
  else
    { command := command, newSettings := devSettings
      error := some HapError.serviceCommunicationFailure }

/-- SwingFan.setActive (part_000 lines 80-92): on sets vane "Swing", off
sets vane "Auto". -/
def SwingFan.setActive (devSettings : List Setting) (isActive : Bool)
    (remoteOk : Bool) : SetOutcome :=
  if isActive then SwingFan.setVanePosition devSettings "Swing" remoteOk
  else SwingFan.setVanePosition devSettings "Auto" remoteOk

/-- The fan accessory's last-published characteristic values (the .value
fields of Active and RotationSpeed read back by updateFromDevice). -/
structure FanPublished where
  active : Nat
  rotationSpeed : Nat
deriving DecidableEq, Repr

/-- The swing accessory's last-published characteristic value (Active only;
it exposes no RotationSpeed). -/
structure SwingPublished where
  active : Nat
deriving DecidableEq, Repr

/-- FanSpeedFan.updateFromDevice (fan-speed-fan.ts lines 199-231):
recomputes Active and RotationSpeed from the snapshot and publishes each
characteristic only when its new value differs from the current one.
Returns the published state afterwards and the list of characteristics
published on this call. -/
def FanSpeedFan.updateFromDevice (pub : FanPublished) (devSettings : List Setting) :
    FanPublished × List String :=
  let settings := parseSettings devSettings
  let isPowerOn := settings.Power = "True"
  let fanSpeed := settings.SetFanSpeed
  let isAuto := fanSpeed = "Auto" ∨ fanSpeed = "0"
  let isActive := isPowerOn ∧ ¬isAuto
  let percentage := FanSpeedFan.fanSpeedToPercentage fanSpeed
  let targetActive := if isActive then ACTIVE else INACTIVE
  let afterActive : FanPublished × List String :=
    if targetActive ≠ pub.active then ({ pub with active := targetActive }, ["Active"])
    else (pub, [])
  let afterSpeed : FanPublished × List String :=
    if percentage ≠ afterActive.1.rotationSpeed then
      ({ afterActive.1 with rotationSpeed := percentage }, ["RotationSpeed"])
    else (afterActive.1, [])
  (afterSpeed.1, afterActive.2 ++ afterSpeed.2)

/-- SwingFan.updateFromDevice (part_000 lines 136-158): recomputes Active
from the snapshot and publishes it only when it differs from the current
value. -/
def SwingFan.updateFromDevice (pub : SwingPublished) (devSettings : List Setting) :
    SwingPublished × List String :=
  let settings := parseSettings devSettings
  let isPowerOn := settings.Power = "True"
  let vaneMode := SwingFan.normalizeVane settings.VaneVerticalDirection
  let isActive := isPowerOn ∧ vaneMode = "swing"
  let targetActive := if isActive then ACTIVE else INACTIVE
  if targetActive ≠ pub.active then ({ pub with active := targetActive }, ["Active"])
  else (pub, [])

/-! Helper lemmas about linear lookup over a field-replacing map. -/

/-- A name-preserving map that fixes every entry named n leaves the lookup
of n unchanged. -/
theorem lookupSetting_map_fix (f : Setting → Setting) (n : String)
    (hname : ∀ s : Setting, (f s).name = s.name)
    (hfix : ∀ s : Setting, s.name = n → f s = s) :
    ∀ dev : List Setting, lookupSetting (dev.map f) n = lookupSetting dev n := by
  intro dev
  induction dev with
  | nil => rfl
  | cons a l ih =>
    simp only [List.map_cons, lookupSetting, hname a]
    by_cases h : a.name = n
    · rw [if_pos h, if_pos h, hfix a h]
    · rw [if_neg h, if_neg h]
      exact ih

/-- A name-preserving map that rewrites every entry named n to the value v
makes the lookup of n return v, provided such an entry exists. -/
theorem lookupSetting_map_replace (f : Setting → Setting) (n v : String)
    (hname : ∀ s : Setting, (f s).name = s.name)
    (hrep : ∀ s : Setting, s.name = n → (f s).value = v) :
    ∀ dev : List Setting, (∃ s ∈ dev, s.name = n) →
      lookupSetting (dev.map f) n = v := by
  intro dev
  induction dev with
  | nil =>
    rintro ⟨s, hs, _⟩
    cases hs
  | cons a l ih =>
    rintro ⟨s, hs, hsn⟩
    simp only [List.map_cons, lookupSetting, hname a]
    by_cases h : a.name = n
    · rw [if_pos h]
      exact hrep a h
    · rw [if_neg h]
      rcases List.mem_cons.mp hs with rfl | hmem
      · exact absurd hsn h
      · exact ih ⟨s, hmem, hsn⟩

/-! Claim theorems. -/

/-- Snapshot refuting claim C1: power on, SetFanSpeed the lower-case string
"auto", which the case-insensitive parsing resolves to level Auto but which
getActive's exact literal comparison does not recognize as Auto. -/
def c1CexSettings : Settings :=
  { Power := "True", OperationMode := "Heat", SetFanSpeed := "auto",
    VaneHorizontalDirection := "Auto", VaneVerticalDirection := "Auto",
    SetTemperature := "22" }

/-- C1 counterexample: the claimed equivalence between the fan's Active
state and (Power = "True" and the case-insensitively parsed level is not
Auto) fails at the snapshot with Power = "True" and SetFanSpeed = "auto":
the parsed level is Auto, yet getActive returns ACTIVE. -/
theorem FanSpeedFan.getActive_case_insensitive_cex :
    ¬ (FanSpeedFan.getActive c1CexSettings = ACTIVE ↔
        (c1CexSettings.Power = "True"
          ∧ parseSpeedLevel c1CexSettings.SetFanSpeed ≠ SpeedLevel.Auto)) := by
  decide

/-- C1 (amended): the fan's derived Active state is ACTIVE iff Power equals
"True" and SetFanSpeed is neither the exact literal "Auto" nor the exact
literal "0" (a case-sensitive comparison, not the case-insensitive parse);
in particular it is INACTIVE whenever Power is "False", regardless of
SetFanSpeed, and the refresh path publishes exactly this derived state. -/
theorem FanSpeedFan.getActive_exact_literal (s : Settings) (pub : FanPublished)
    (dev : List Setting) :
    (FanSpeedFan.getActive s = ACTIVE ↔
      s.Power = "True" ∧ s.SetFanSpeed ≠ "Auto" ∧ s.SetFanSpeed ≠ "0")
    ∧ (s.Power = "False" → FanSpeedFan.getActive s = INACTIVE)
    ∧ (FanSpeedFan.updateFromDevice pub dev).1.active
        = FanSpeedFan.getActive (parseSettings dev) := by
  refine ⟨?_, ?_, ?_⟩
  · unfold FanSpeedFan.getActive
    dsimp only
    split_ifs with h
    · simp only [ACTIVE]
      constructor
      · intro _
        exact ⟨h.1, fun ha => h.2 (Or.inl ha), fun hz => h.2 (Or.inr hz)⟩
      · intro _
        trivial
    · simp only [INACTIVE, ACTIVE]
      constructor
      · intro hh
        omega
      · intro ⟨hp, ha, hz⟩
        exact absurd ⟨hp, fun hor => hor.elim ha hz⟩ h
  · intro hp
    unfold FanSpeedFan.getActive
    dsimp only
    split_ifs with h
    · rw [hp] at h
      simp at h
    · rfl
  · unfold FanSpeedFan.updateFromDevice FanSpeedFan.getActive
    dsimp only
    split_ifs <;> simp_all

/-- Snapshot witnessing the amended C1 at a concrete input. -/
def c1WitnessSettings : Settings :=
  { Power := "False", OperationMode := "Heat", SetFanSpeed := "Three",
    VaneHorizontalDirection := "Auto", VaneVerticalDirection := "Auto",
    SetTemperature := "22" }

/-- Witness for the amended C1: with Power = "False" the fan is INACTIVE. -/
theorem FanSpeedFan.getActive_exact_literal_witness :
    FanSpeedFan.getActive c1WitnessSettings = INACTIVE :=
  (FanSpeedFan.getActive_exact_literal c1WitnessSettings ⟨0, 0⟩ []).2.1 rfl

/-- Settings list refuting claim C2: it carries a Power entry whose value
is "False". -/
def c2CexDev : List Setting := [⟨"Power", "False"⟩, ⟨"SetFanSpeed", "Auto"⟩]

/-- C2 counterexample: a successful fan setFanSpeed does not replace only
the SetFanSpeed field — on the snapshot with Power = "False" the resulting
settings differ from the snapshot with only SetFanSpeed replaced, because
the Power entry has been rewritten to "True". -/
theorem FanSpeedFan.setFanSpeed_rewrites_power_cex :
    (FanSpeedFan.setFanSpeed c2CexDev "Five" true).newSettings
        ≠ [⟨"Power", "False"⟩, ⟨"SetFanSpeed", "Five"⟩]
    ∧ lookupSetting (FanSpeedFan.setFanSpeed c2CexDev "Five" true).newSettings "Power" = "True"
    ∧ lookupSetting c2CexDev "Power" = "False" := by
  decide

/-- C2 (amended): on a successful write the optimistic update rebuilds the
snapshot by immutable field replace; the swing variant replaces exactly
VaneVerticalDirection and leaves every other field untouched, while the fan
variant replaces SetFanSpeed and additionally forces Power to "True",
leaving every field other than those two untouched. -/
theorem dispatch_optimistic_update_frame (dev : List Setting) (fs vd n : String) :
    (n ≠ "SetFanSpeed" → n ≠ "Power" →
      lookupSetting (FanSpeedFan.setFanSpeed dev fs true).newSettings n = lookupSetting dev n)
    ∧ ((∃ s ∈ dev, s.name = "SetFanSpeed") →
      lookupSetting (FanSpeedFan.setFanSpeed dev fs true).newSettings "SetFanSpeed" = fs)
    ∧ ((∃ s ∈ dev, s.name = "Power") →
      lookupSetting (FanSpeedFan.setFanSpeed dev fs true).newSettings "Power" = "True")
    ∧ (n ≠ "VaneVerticalDirection" →
      lookupSetting (SwingFan.setVanePosition dev vd true).newSettings n = lookupSetting dev n)
    ∧ ((∃ s ∈ dev, s.name = "VaneVerticalDirection") →
      lookupSetting (SwingFan.setVanePosition dev vd true).newSettings "VaneVerticalDirection" = vd) := by
  have hfan : (FanSpeedFan.setFanSpeed dev fs true).newSettings
      = dev.map (fun setting =>
          if setting.name = "SetFanSpeed" then { setting with value := fs }
          else if setting.name = "Power" then { setting with value := "True" }
          else setting) := rfl
  have hswing : (SwingFan.setVanePosition dev vd true).newSettings
      = dev.map (fun setting =>
          if setting.name = "VaneVerticalDirection" then { setting with value := vd }
          else setting) := rfl
  have hnameFan : ∀ s : Setting, ((fun setting =>
      if setting.name = "SetFanSpeed" then { setting with value := fs }
      else if setting.name = "Power" then { setting with value := "True" }
      else setting) s).name = s.name := by
    intro s
    dsimp only
    split_ifs <;> rfl
  have hnameSwing : ∀ s : Setting, ((fun setting =>
      if setting.name = "VaneVerticalDirection" then { setting with value := vd }
      else setting) s).name = s.name := by
    intro s
    dsimp only
    split_ifs <;> rfl
  refine ⟨?_, ?_, ?_, ?_, ?_⟩
  · intro hn1 hn2
    rw [hfan]
    refine lookupSetting_map_fix _ n hnameFan ?_ dev
    intro s hs
    dsimp only
    rw [if_neg (by rw [hs]; exact hn1), if_neg (by rw [hs]; exact hn2)]
  · intro hex
    rw [hfan]
    refine lookupSetting_map_replace _ _ fs hnameFan ?_ dev hex
    intro s hs
    dsimp only
    rw [if_pos hs]
  · intro hex
    rw [hfan]
    refine lookupSetting_map_replace _ _ "True" hnameFan ?_ dev hex
    intro s hs
    dsimp only
    rw [if_neg (by rw [hs]; simp), if_pos hs]
  · intro hn
    rw [hswing]
    refine lookupSetting_map_fix _ n hnameSwing ?_ dev
    intro s hs
    dsimp only
    rw [if_neg (by rw [hs]; exact hn)]
  · intro hex
    rw [hswing]
    refine lookupSetting_map_replace _ _ vd hnameSwing ?_ dev hex
    intro s hs
    dsimp only
    rw [if_pos hs]

/-- Full settings list used by the C2 and C5 witnesses. -/
def fullDev : List Setting :=
  [⟨"Power", "True"⟩, ⟨"OperationMode", "Cool"⟩, ⟨"SetFanSpeed", "Two"⟩,
   ⟨"VaneHorizontalDirection", "Auto"⟩, ⟨"VaneVerticalDirection", "Auto"⟩,
   ⟨"SetTemperature", "21"⟩]

/-- Witness for the amended C2 at a concrete snapshot: SetTemperature is
untouched by both writes while the written fields take their new values. -/
theorem dispatch_optimistic_update_frame_witness :
    lookupSetting (FanSpeedFan.setFanSpeed fullDev "Five" true).newSettings "SetTemperature"
        = lookupSetting fullDev "SetTemperature"
    ∧ lookupSetting (FanSpeedFan.setFanSpeed fullDev "Five" true).newSettings "SetFanSpeed" = "Five"
    ∧ lookupSetting (FanSpeedFan.setFanSpeed fullDev "Five" true).newSettings "Power" = "True"
    ∧ lookupSetting (SwingFan.setVanePosition fullDev "Swing" true).newSettings "SetTemperature"
        = lookupSetting fullDev "SetTemperature"
    ∧ lookupSetting (SwingFan.setVanePosition fullDev "Swing" true).newSettings "VaneVerticalDirection"
        = "Swing" := by
  have h := dispatch_optimistic_update_frame fullDev "Five" "Swing" "SetTemperature"
  exact ⟨h.1 (by decide) (by decide), h.2.1 (by decide), h.2.2.1 (by decide),
    h.2.2.2.1 (by decide), h.2.2.2.2 (by decide)⟩

/-- C3: when the remote controlDevice call fails, both variants leave the
cached settings list exactly as it was and raise the single generic
service-communication fault to the caller. -/
theorem dispatch_failure_preserves_settings (dev : List Setting) (fs vd : String) :
    ((FanSpeedFan.setFanSpeed dev fs false).newSettings = dev
      ∧ (FanSpeedFan.setFanSpeed dev fs false).error
          = some HapError.serviceCommunicationFailure)
    ∧ ((SwingFan.setVanePosition dev vd false).newSettings = dev
      ∧ (SwingFan.setVanePosition dev vd false).error
          = some HapError.serviceCommunicationFailure) :=
  ⟨⟨rfl, rfl⟩, ⟨rfl, rfl⟩⟩

/-- C4: running updateFromDevice a second time with an identical snapshot
publishes no characteristic on the second call, on both the fan and swing
variants — each characteristic is published only when its newly computed
value differs from the last-published value. -/
theorem updateFromDevice_second_run_silent (pub : FanPublished) (spub : SwingPublished)
    (dev : List Setting) :
    (FanSpeedFan.updateFromDevice (FanSpeedFan.updateFromDevice pub dev).1 dev).2 = []
    ∧ (SwingFan.updateFromDevice (SwingFan.updateFromDevice spub dev).1 dev).2 = [] := by
  constructor
  · unfold FanSpeedFan.updateFromDevice
    dsimp only
    split_ifs <;> simp_all
  · unfold SwingFan.updateFromDevice
    dsimp only
    split_ifs <;> simp_all

/-- C5: the swing variant's setActive dispatches a command whose power
field mirrors the snapshot's current Power value ("True" maps to true,
anything else to false), whose only changed field is VaneVerticalDirection
("Swing" on activate, "Auto" on deactivate) while all other command fields
are copied from the snapshot, and the cached Power field is unchanged
afterward. -/
theorem SwingFan.setActive_preserves_power (dev : List Setting) (b : Bool) :
    ((SwingFan.setActive dev b true).command.power = true ↔
      lookupSetting dev "Power" = "True")
    ∧ (SwingFan.setActive dev b true).command.vaneVerticalDirection
        = (if b then "Swing" else "Auto")
    ∧ (SwingFan.setActive dev b true).command.operationMode
        = lookupSetting dev "OperationMode"
    ∧ (SwingFan.setActive dev b true).command.setFanSpeed
        = lookupSetting dev "SetFanSpeed"
    ∧ (SwingFan.setActive dev b true).command.vaneHorizontalDirection
        = lookupSetting dev "VaneHorizontalDirection"
    ∧ (SwingFan.setActive dev b true).command.setTemperatureRaw
        = lookupSetting dev "SetTemperature"
    ∧ lookupSetting (SwingFan.setActive dev b true).newSettings "Power"
        = lookupSetting dev "Power" := by
  have hname : ∀ vd : String, ∀ s : Setting, ((fun setting =>
      if setting.name = "VaneVerticalDirection" then { setting with value := vd }
      else setting) s).name = s.name := by
    intro vd s
    dsimp only
    split_ifs <;> rfl
  have hfix : ∀ vd : String, ∀ s : Setting, s.name = "Power" → (fun setting =>
      if setting.name = "VaneVerticalDirection" then { setting with value := vd }
      else setting) s = s := by
    intro vd s hs
    dsimp only
    rw [if_neg (by rw [hs]; simp)]
  cases b <;>
    exact ⟨by simp [SwingFan.setActive, SwingFan.setVanePosition, parseSettings],
      rfl, rfl, rfl, rfl, rfl,
      lookupSetting_map_fix _ "Power" (hname _) (hfix _) dev⟩

/-- C6: percentageToFanSpeed follows the upper-inclusive bucket rule on
[0,100] — 0 maps to Auto, (0,20] to One, (20,40] to Two, (40,60] to Three,
(60,80] to Four, (80,100] to Five — and setRotationSpeed 45 dispatches a
command with setFanSpeed "Three". -/
theorem FanSpeedFan.percentageToFanSpeed_buckets (p : ℚ) (dev : List Setting)
    (h0 : 0 ≤ p) (h100 : p ≤ 100) :
    ((FanSpeedFan.percentageToFanSpeed p = "Auto" ↔ p = 0)
    ∧ (FanSpeedFan.percentageToFanSpeed p = "One" ↔ 0 < p ∧ p ≤ 20)
    ∧ (FanSpeedFan.percentageToFanSpeed p = "Two" ↔ 20 < p ∧ p ≤ 40)
    ∧ (FanSpeedFan.percentageToFanSpeed p = "Three" ↔ 40 < p ∧ p ≤ 60)
    ∧ (FanSpeedFan.percentageToFanSpeed p = "Four" ↔ 60 < p ∧ p ≤ 80)
    ∧ (FanSpeedFan.percentageToFanSpeed p = "Five" ↔ 80 < p ∧ p ≤ 100))
    ∧ (FanSpeedFan.setRotationSpeed dev 45 true).command.setFanSpeed = "Three" := by
  constructor
  · have hz : p = 0 ∨ 0 < p := by
      rcases eq_or_lt_of_le h0 with h | h
      · exact Or.inl h.symm
      · exact Or.inr h
    unfold FanSpeedFan.percentageToFanSpeed
    split_ifs with h1 h2 h3 h4 h5 <;>
      refine ⟨?_, ?_, ?_, ?_, ?_, ?_⟩ <;> simp_all <;>
      first
        | linarith
        | (intro h6; linarith)
  · show (FanSpeedFan.setFanSpeed dev (FanSpeedFan.percentageToFanSpeed 45) true).command.setFanSpeed
        = "Three"
    have h45 : FanSpeedFan.percentageToFanSpeed 45 = "Three" := by decide
    rw [h45]
    rfl

/-- Witness for C6 at p = 45 on a concrete snapshot. -/
theorem FanSpeedFan.percentageToFanSpeed_buckets_witness :
    (FanSpeedFan.setRotationSpeed [] 45 true).command.setFanSpeed = "Three"
    ∧ (FanSpeedFan.percentageToFanSpeed 45 = "Three" ↔ 40 < (45 : ℚ) ∧ (45 : ℚ) ≤ 60) :=
  ⟨(FanSpeedFan.percentageToFanSpeed_buckets 45 [] (by norm_num) (by norm_num)).2,
   (FanSpeedFan.percentageToFanSpeed_buckets 45 [] (by norm_num) (by norm_num)).1.2.2.2.1⟩

/-- C7: fanSpeedToPercentage returns ordinal-times-20 for any case variant
of a level's name and for its numeric-string alias, and returns 0 (the
Auto fail-safe default, never an error) for every unrecognized input. -/
theorem FanSpeedFan.fanSpeedToPercentage_level_aliases (lvl : SpeedLevel) (s : String) :
    ((jsToLower s = lvl.lowerName ∨ jsToLower s = lvl.numAlias) →
      FanSpeedFan.fanSpeedToPercentage s = 20 * lvl.ordinal)
    ∧ ((∀ l : SpeedLevel, jsToLower s ≠ l.lowerName ∧ jsToLower s ≠ l.numAlias) →
      FanSpeedFan.fanSpeedToPercentage s = 0) := by
  constructor
  · intro h
    cases lvl <;> rcases h with h | h <;>
      simp_all [FanSpeedFan.fanSpeedToPercentage, SpeedLevel.lowerName, SpeedLevel.numAlias,
        SpeedLevel.ordinal]
  · intro h
    have hA := h SpeedLevel.Auto
    have h1 := h SpeedLevel.One
    have h2 := h SpeedLevel.Two
    have h3 := h SpeedLevel.Three
    have h4 := h SpeedLevel.Four
    have h5 := h SpeedLevel.Five
    simp only [SpeedLevel.lowerName, SpeedLevel.numAlias] at hA h1 h2 h3 h4 h5
    simp [FanSpeedFan.fanSpeedToPercentage, hA.1, hA.2, h1.1, h1.2, h2.1, h2.2,
      h3.1, h3.2, h4.1, h4.2, h5.1, h5.2]

/-- Witness for C7: the upper-case variant "THREE" maps to 20 times the
ordinal of level Three. -/
theorem FanSpeedFan.fanSpeedToPercentage_level_aliases_witness :
    FanSpeedFan.fanSpeedToPercentage "THREE" = 20 * SpeedLevel.Three.ordinal :=
  (FanSpeedFan.fanSpeedToPercentage_level_aliases SpeedLevel.Three "THREE").1
    (Or.inl (by decide))

/-- C8: normalizeVane returns "auto" exactly when the lowercased input is
"0" or "auto", "swing" exactly when it is "6", "six", "7" or "swing", and
otherwise returns the lowercased input itself, which is then neither
"auto" nor "swing". -/
theorem SwingFan.normalizeVane_characterization (s : String) :
    (SwingFan.normalizeVane s = "auto" ↔ (jsToLower s = "0" ∨ jsToLower s = "auto"))
    ∧ (SwingFan.normalizeVane s = "swing" ↔
        (jsToLower s = "6" ∨ jsToLower s = "six" ∨ jsToLower s = "7" ∨ jsToLower s = "swing"))
    ∧ ((¬(jsToLower s = "0" ∨ jsToLower s = "auto")) →
       (¬(jsToLower s = "6" ∨ jsToLower s = "six" ∨ jsToLower s = "7" ∨ jsToLower s = "swing")) →
       SwingFan.normalizeVane s = jsToLower s ∧ SwingFan.normalizeVane s ≠ "auto"
         ∧ SwingFan.normalizeVane s ≠ "swing") := by
  unfold SwingFan.normalizeVane
  dsimp only
  split_ifs with h1 h2 <;> simp_all <;> (rcases h1 with h | h <;> simp_all)

/-- Witness for C8: "Down" is neither an auto nor a swing alias and passes
through lowercased. -/
theorem SwingFan.normalizeVane_characterization_witness :
    SwingFan.normalizeVane "Down" = jsToLower "Down"
    ∧ SwingFan.normalizeVane "Down" ≠ "auto" ∧ SwingFan.normalizeVane "Down" ≠ "swing" :=
  (SwingFan.normalizeVane_characterization "Down").2.2 (by decide) (by decide)

/-- C9: composing percentageToFanSpeed with fanSpeedToPercentage is the
identity on the canonical percentages 0, 20, 40, 60, 80, 100, and
percentageToFanSpeed is non-decreasing over [0,100] with respect to the
level order Auto < One < Two < Three < Four < Five. -/
theorem speedMapper_roundtrip_monotone (p q : ℚ) (h0 : 0 ≤ p) (hpq : p ≤ q)
    (h100 : q ≤ 100) :
    (FanSpeedFan.fanSpeedToPercentage (FanSpeedFan.percentageToFanSpeed 0) = 0
      ∧ FanSpeedFan.fanSpeedToPercentage (FanSpeedFan.percentageToFanSpeed 20) = 20
      ∧ FanSpeedFan.fanSpeedToPercentage (FanSpeedFan.percentageToFanSpeed 40) = 40
      ∧ FanSpeedFan.fanSpeedToPercentage (FanSpeedFan.percentageToFanSpeed 60) = 60
      ∧ FanSpeedFan.fanSpeedToPercentage (FanSpeedFan.percentageToFanSpeed 80) = 80
      ∧ FanSpeedFan.fanSpeedToPercentage (FanSpeedFan.percentageToFanSpeed 100) = 100)
    ∧ (parseSpeedLevel (FanSpeedFan.percentageToFanSpeed p)).ordinal
        ≤ (parseSpeedLevel (FanSpeedFan.percentageToFanSpeed q)).ordinal := by
  constructor
  · exact ⟨by decide, by decide, by decide, by decide, by decide, by decide⟩
  · have e0 : parseSpeedLevel "Auto" = SpeedLevel.Auto := by decide
    have e1 : parseSpeedLevel "One" = SpeedLevel.One := by decide
    have e2 : parseSpeedLevel "Two" = SpeedLevel.Two := by decide
    have e3 : parseSpeedLevel "Three" = SpeedLevel.Three := by decide
    have e4 : parseSpeedLevel "Four" = SpeedLevel.Four := by decide
    have e5 : parseSpeedLevel "Five" = SpeedLevel.Five := by decide
    unfold FanSpeedFan.percentageToFanSpeed
    split_ifs with a1 a2 a3 a4 a5 b1 b2 b3 b4 b5 <;> simp_all [SpeedLevel.ordinal] <;>
      first
        | linarith
        | (exact a1 (le_antisymm (by linarith) h0))

/-- Witness for C9 at p = 10, q = 50. -/
theorem speedMapper_roundtrip_monotone_witness :
    (parseSpeedLevel (FanSpeedFan.percentageToFanSpeed 10)).ordinal
      ≤ (parseSpeedLevel (FanSpeedFan.percentageToFanSpeed 50)).ordinal :=
  (speedMapper_roundtrip_monotone 10 50 (by norm_num) (by norm_num) (by norm_num)).2

/-- C10: fanSpeedToPercentage maps every input string into the set
{0, 20, 40, 60, 80, 100}, so the RotationSpeed value read from a snapshot
is always a multiple of 20 within the declared 0-100 range. -/
theorem FanSpeedFan.fanSpeedToPercentage_range (s : String) (st : Settings) :
    (FanSpeedFan.fanSpeedToPercentage s = 0 ∨ FanSpeedFan.fanSpeedToPercentage s = 20
      ∨ FanSpeedFan.fanSpeedToPercentage s = 40 ∨ FanSpeedFan.fanSpeedToPercentage s = 60
      ∨ FanSpeedFan.fanSpeedToPercentage s = 80 ∨ FanSpeedFan.fanSpeedToPercentage s = 100)
    ∧ FanSpeedFan.getRotationSpeed st ≤ 100
    ∧ 20 ∣ FanSpeedFan.getRotationSpeed st := by
  have key : ∀ t : String, FanSpeedFan.fanSpeedToPercentage t = 0
      ∨ FanSpeedFan.fanSpeedToPercentage t = 20 ∨ FanSpeedFan.fanSpeedToPercentage t = 40
      ∨ FanSpeedFan.fanSpeedToPercentage t = 60 ∨ FanSpeedFan.fanSpeedToPercentage t = 80
      ∨ FanSpeedFan.fanSpeedToPercentage t = 100 := by
    intro t
    unfold FanSpeedFan.fanSpeedToPercentage
    dsimp only
    split_ifs <;> simp
  refine ⟨key s, ?_, ?_⟩ <;>
    · unfold FanSpeedFan.getRotationSpeed
      rcases key st.SetFanSpeed with h | h | h | h | h | h <;> rw [h] <;> decide
